import Mathlib

/-!
Verification development for the evdev joystick test program.

The definitions below are a shallow embedding of the C sources
(`src/joystick.c`, `src/event-widget.c`).  Pure C functions become Lean
functions; the poll state machine becomes an explicit step function on a
state record; kernel/libevdev calls are abstracted as boolean/stream
parameters supplied by the environment.  Machine integers are modelled as
`Nat` with explicit masking where the C code casts.
-/

set_option maxRecDepth 10000

namespace EvdevJoy

/-! ## Code tables (joystick.c lines 34-203)

`ev_code_name_t` pairs an event code with a display name.  The three
tables below transcribe `button_names`, `axis_names` and `hat_names`
verbatim, with the kernel macros replaced by their numeric values from
`linux/input-event-codes.h` (BTN_0 = 0x100, BTN_1 = 0x101, BTN_LEFT =
0x110, ..., BTN_DPAD_RIGHT = 0x223, ABS_X = 0, ..., ABS_MISC = 0x28).
Note that the first ten source entries alternate between the macros
`BTN_0` and `BTN_1` while being labeled "Btn0".."Btn9"; the transcription
keeps those duplicate codes exactly as written. -/

structure EvCodeName where
  code : Nat
  name : String
  deriving DecidableEq, Repr

def button_names : List EvCodeName := [
  ⟨0x100, "Btn0"⟩, ⟨0x101, "Btn1"⟩,
  ⟨0x100, "Btn2"⟩, ⟨0x101, "Btn3"⟩,
  ⟨0x100, "Btn4"⟩, ⟨0x101, "Btn5"⟩,
  ⟨0x100, "Btn6"⟩, ⟨0x101, "Btn7"⟩,
  ⟨0x100, "Btn8"⟩, ⟨0x101, "Btn9"⟩,
  ⟨0x110, "LeftBtn"⟩, ⟨0x111, "RightBtn"⟩,
  ⟨0x112, "MiddleBtn"⟩, ⟨0x113, "SideBtn"⟩,
  ⟨0x114, "ExtraBtn"⟩, ⟨0x115, "FowardBtn"⟩,
  ⟨0x116, "BackBtn"⟩, ⟨0x117, "TaskBtn"⟩,
  ⟨0x120, "Trigger"⟩, ⟨0x121, "ThumbBtn"⟩,
  ⟨0x122, "ThumbBtn2"⟩, ⟨0x123, "TopBtn"⟩,
  ⟨0x124, "TopBtn2"⟩, ⟨0x125, "PinkieButton"⟩,
  ⟨0x126, "BaseBtn"⟩, ⟨0x127, "BaseBtn2"⟩,
  ⟨0x128, "BaseBtn3"⟩, ⟨0x129, "BaseBtn4"⟩,
  ⟨0x12a, "BaseBtn5"⟩, ⟨0x12b, "BaseBtn6"⟩,
  ⟨0x12f, "BtnDead"⟩,
  ⟨0x130, "BtnA"⟩, ⟨0x131, "BtnB"⟩,
  ⟨0x132, "BtnC"⟩, ⟨0x133, "BtnX"⟩,
  ⟨0x134, "BtnY"⟩, ⟨0x135, "BtnZ"⟩,
  ⟨0x136, "BtnTL"⟩, ⟨0x137, "BtnTR"⟩,
  ⟨0x138, "BtnTL2"⟩, ⟨0x139, "BtnTR2"⟩,
  ⟨0x13a, "BtnSelect"⟩, ⟨0x13b, "BtnStart"⟩,
  ⟨0x13c, "BtnMode"⟩, ⟨0x13d, "BtnThumbL"⟩,
  ⟨0x13e, "BtnThumbR"⟩,
  ⟨0x150, "GearDown"⟩, ⟨0x151, "GearUp"⟩,
  ⟨0x220, "BtnDPadUp"⟩, ⟨0x221, "BtnDPadDown"⟩,
  ⟨0x222, "BtnDPadLeft"⟩, ⟨0x223, "BtnDPadRight"⟩ ]

def axis_names : List EvCodeName := [
  ⟨0x00, "X"⟩, ⟨0x01, "Y"⟩, ⟨0x02, "Z"⟩,
  ⟨0x03, "Rx"⟩, ⟨0x04, "Ry"⟩, ⟨0x05, "Rz"⟩,
  ⟨0x06, "Throttle"⟩, ⟨0x07, "Rudder"⟩,
  ⟨0x08, "Wheel"⟩, ⟨0x09, "Gas"⟩, ⟨0x0a, "Brake"⟩,
  ⟨0x10, "Hat0X"⟩, ⟨0x11, "Hat0Y"⟩,
  ⟨0x12, "Hat1X"⟩, ⟨0x13, "Hat1Y"⟩,
  ⟨0x14, "Hat2X"⟩, ⟨0x15, "Hat2Y"⟩,
  ⟨0x16, "Hat3X"⟩, ⟨0x17, "Hat3Y"⟩,
  ⟨0x18, "Pressure"⟩, ⟨0x19, "Distance"⟩,
  ⟨0x1a, "XTilt"⟩, ⟨0x1b, "YTilt"⟩,
  ⟨0x1c, "ToolWidth"⟩, ⟨0x20, "Volume"⟩,
  ⟨0x21, "Profile"⟩, ⟨0x28, "Misc"⟩ ]

def hat_names : List EvCodeName := [
  ⟨0x10, "Hat0"⟩, ⟨0x11, "Hat0"⟩,
  ⟨0x12, "Hat1"⟩, ⟨0x13, "Hat1"⟩,
  ⟨0x14, "Hat2"⟩, ⟨0x15, "Hat2"⟩,
  ⟨0x16, "Hat3"⟩, ⟨0x17, "Hat3"⟩ ]

/-- The lookup loop shared verbatim by `joy_get_axis_name`,
`joy_get_button_name` and `joy_get_hat_name`: scan the table in order;
return the name at the first entry whose code equals the query; stop and
return the placeholder at the first entry whose code exceeds the query;
return the placeholder when the table is exhausted. -/
def lookupName : List EvCodeName → Nat → String
  | [], _ => "<?>"
  | e :: rest, code =>
      if e.code = code then e.name
      else if code < e.code then "<?>"
      else lookupName rest code

def joy_get_button_name (code : Nat) : String := lookupName button_names code

def joy_get_axis_name (code : Nat) : String := lookupName axis_names code

def joy_get_hat_name (code : Nat) : String := lookupName hat_names code

/-- Specification-side lookup: the documented name of a code is the name
of the first table entry carrying that code ("ties-to-first-match" per
the spec), and codes absent from a table get the placeholder. -/
def firstMatchName (table : List EvCodeName) (code : Nat) : String :=
  match table.find? (fun e => e.code == code) with
  | some e => e.name
  | none => "<?>"

theorem lookupName_of_big (t : List EvCodeName) (code : Nat)
    (h : ∀ e ∈ t, e.code < 0x224) (hc : 0x224 ≤ code) :
    lookupName t code = "<?>" := by
  induction t with
  | nil => rfl
  | cons e rest ih =>
      have he : e.code < 0x224 := h e (List.mem_cons_self e rest)
      have hlt : e.code < code := Nat.lt_of_lt_of_le he hc
      have h1 : e.code ≠ code := Nat.ne_of_lt hlt
      have h2 : ¬ code < e.code := Nat.not_lt.mpr (Nat.le_of_lt hlt)
      simp only [lookupName, if_neg h1, if_neg h2]
      exact ih (fun x hx => h x (List.mem_cons_of_mem e hx))

theorem firstMatchName_of_big (t : List EvCodeName) (code : Nat)
    (h : ∀ e ∈ t, e.code < 0x224) (hc : 0x224 ≤ code) :
    firstMatchName t code = "<?>" := by
  have hnone : t.find? (fun e => e.code == code) = none := by
    rw [List.find?_eq_none]
    intro e he
    have : e.code ≠ code := Nat.ne_of_lt (Nat.lt_of_lt_of_le (h e he) hc)
    simpa using this
  simp [firstMatchName, hnone]

theorem name_tables_small : ∀ code < 0x224,
    joy_get_button_name code = firstMatchName button_names code ∧
    joy_get_axis_name code = firstMatchName axis_names code ∧
    joy_get_hat_name code = firstMatchName hat_names code := by decide

theorem button_names_codes_small : ∀ e ∈ button_names, e.code < 0x224 := by decide

theorem axis_names_codes_small : ∀ e ∈ axis_names, e.code < 0x224 := by decide

theorem hat_names_codes_small : ∀ e ∈ hat_names, e.code < 0x224 := by decide

/-- C7: for every code that occurs in a name table the lookup functions
return that code's documented name (the name at the first entry in table
order carrying the code), and for every code absent from the table they
return the placeholder string; this holds over the whole code range,
including code 0, each table's largest code, and everything past it. -/
theorem c7_name_lookup (code : Nat) :
    joy_get_button_name code = firstMatchName button_names code ∧
    joy_get_axis_name code = firstMatchName axis_names code ∧
    joy_get_hat_name code = firstMatchName hat_names code := by
  by_cases h : code < 0x224
  · exact name_tables_small code h
  · have hc : 0x224 ≤ code := Nat.not_lt.mp h
    refine ⟨?_, ?_, ?_⟩
    · rw [joy_get_button_name, lookupName_of_big _ _ button_names_codes_small hc,
          firstMatchName_of_big _ _ button_names_codes_small hc]
    · rw [joy_get_axis_name, lookupName_of_big _ _ axis_names_codes_small hc,
          firstMatchName_of_big _ _ axis_names_codes_small hc]
    · rw [joy_get_hat_name, lookupName_of_big _ _ hat_names_codes_small hc,
          firstMatchName_of_big _ _ hat_names_codes_small hc]

/-! ## GUID generation (joystick.c lines 260-311)

`dev_info_generate_guid` packs the 16-bit bus/vendor/product/version
fields into a 16-byte array; `dev_info_generate_guid_str` renders that
array as hex characters.  The rendering indexes the digit table with
`guid[i] >> 8` for the first character of each byte (the source text, as
written) and `guid[i] & 0x0f` for the second. -/

def hexDigits : List Char := "0123456789abcdef".data

def dev_info_generate_guid (bustype vendor product version : Nat) : List Nat :=
  [ bustype &&& 0xff, (bustype >>> 8) &&& 0xff, 0, 0,
    vendor &&& 0xff, (vendor >>> 8) &&& 0xff, 0, 0,
    product &&& 0xff, (product >>> 8) &&& 0xff, 0, 0,
    version &&& 0xff, (version >>> 8) &&& 0xff, 0, 0 ]

/-- One byte of `guid_str`: the source writes `digits[guid[i] >> 8]`
followed by `digits[guid[i] & 0x0f]`.  (Indexing uses `getD`; for the
byte values 0..255 produced by `dev_info_generate_guid` the first index
is always 0, so the default is never consulted.) -/
def guid_byte_hex (b : Nat) : List Char :=
  [hexDigits.getD (b >>> 8) '0', hexDigits.getD (b &&& 0x0f) '0']

def dev_info_generate_guid_str (guid : List Nat) : List Char :=
  (guid.map guid_byte_hex).flatten

/-- Hex value of a character, used by the specification-side decoder. -/
def hexCharVal (c : Char) : Nat := hexDigits.indexOf c

/-- Specification-side decoder, following the claim's words: read two hex
characters per byte and recombine two consecutive bytes little-endian,
starting at byte offset `off`. -/
def specDecodeField (s : List Char) (off : Nat) : Nat :=
  (16 * hexCharVal (s.getD (2 * off) '0') + hexCharVal (s.getD (2 * off + 1) '0')) +
    256 * (16 * hexCharVal (s.getD (2 * (off + 1)) '0') + hexCharVal (s.getD (2 * (off + 1) + 1) '0'))

/-- C2 (code bug): evaluated at bustype 0x13 (vendor, product, version
all 0) the rendered GUID string has the claimed length 32, but decoding
byte offset 0 little-endian yields 0x03, not the original 0x13: the
renderer computes the high nibble as `guid[i] >> 8` (always 0 for a
byte) instead of `guid[i] >> 4`, so every high nibble renders as '0' and
the round trip of the claim fails. -/
theorem c2_guid_roundtrip_fails :
    (dev_info_generate_guid_str (dev_info_generate_guid 0x13 0 0 0)).length = 32 ∧
    specDecodeField (dev_info_generate_guid_str (dev_info_generate_guid 0x13 0 0 0)) 0 = 0x03 ∧
    (0x03 : Nat) ≠ 0x13 := by decide

/-! ## Button capability scan (joystick.c lines 318-350)

`dev_info_scan_buttons` runs only when the device has event type EV_KEY.
It counts supported codes in `[BTN_MISC, KEY_MAX)` into `num_buttons`,
then resets its local counter to zero, allocates
`num_buttons * sizeof(uint16_t)` bytes with the counter already reset
(i.e. zero bytes), and populates `button_map` from the distinct range
`[BTN_JOYSTICK, KEY_MAX)`.  The model records the three observables:
the stored count, the number of map elements allocated, and the list of
codes the population loop writes. -/

def BTN_MISC : Nat := 0x100

def BTN_JOYSTICK : Nat := 0x120

def KEY_MAX : Nat := 0x2ff

def codeRange (lo hi : Nat) : List Nat := (List.range (hi - lo)).map (fun k => lo + k)

structure ButtonScan where
  num_buttons : Nat
  button_map_alloc : Nat
  button_map : List Nat
  deriving DecidableEq, Repr

def dev_info_scan_buttons (has_ev_key : Bool) (has_code : Nat → Bool) : ButtonScan :=
  if has_ev_key then
    { num_buttons := ((codeRange BTN_MISC KEY_MAX).filter has_code).length
      button_map_alloc := 0
      button_map := (codeRange BTN_JOYSTICK KEY_MAX).filter has_code }
  else
    { num_buttons := 0, button_map_alloc := 0, button_map := [] }

/-- C3 (code bug): for a device whose only supported key code is BTN_0
(0x100) the counting pass reports one button but the population pass
(which starts at BTN_JOYSTICK = 0x120, not BTN_MISC = 0x100) writes no
entries; and for a device supporting only BTN_A (0x130) one entry is
written into a `button_map` for which zero elements were allocated, the
allocation size having been computed after the counter was reset to 0.
Both facts contradict the claim that the two passes cover the same range
and that the allocated length equals `num_buttons`. -/
theorem c3_button_scan_mismatch :
    (dev_info_scan_buttons true (fun c => c == 0x100)).num_buttons = 1 ∧
    (dev_info_scan_buttons true (fun c => c == 0x100)).button_map = [] ∧
    (dev_info_scan_buttons true (fun c => c == 0x130)).num_buttons = 1 ∧
    (dev_info_scan_buttons true (fun c => c == 0x130)).button_map_alloc = 0 ∧
    (dev_info_scan_buttons true (fun c => c == 0x130)).button_map = [0x130] := by decide

/-! ## Directory scan (joystick.c lines 477-622)

`joy_scan_devices` runs `scandir` with the filter `sd_filter` (keep
names strictly longer than, and ending with, "-event-joystick"), sets
the module-level `devices_count` to the number of surviving entries,
allocates `devices_count + 1` list slots all cleared to NULL, and then
loops `d` over the entries while a second index `i` counts successes.
The source builds the path of attempt `d` from `namelist[i]` (not
`namelist[d]`), so after any failure the same entry is retried and the
later survivors are never visited; the entry used was moreover already
freed at the end of its own iteration (a use-after-free).  The model
reads the stale name as the value it held, which is the most charitable
rendering of that read.  Per-device success or failure of
`sd_get_dev_info` (open + libevdev negotiation) is abstracted as the
oracle `dev_ok` on the device path.  The `scandir` error case (directory
unreadable) is outside the claims and is not modelled. -/

def JOY_UDEV_SUFFIX : String := "-event-joystick"

def sd_filter (name : String) : Bool :=
  decide (JOY_UDEV_SUFFIX.data.length < name.data.length) &&
    JOY_UDEV_SUFFIX.data.isSuffixOf name.data

def sd_get_full_path (root name : String) : String :=
  if root.data.isEmpty then "/" ++ name
  else if root.data.getLast? == some '/' then String.mk root.data.dropLast ++ "/" ++ name
  else root ++ "/" ++ name

/-- The descriptor-building loop of `joy_scan_devices`: `remaining`
counts the iterations of `d` still to run, `i` is the success index; the
result is the list of device paths whose descriptors were appended to
`devices_list`, in order.  Faithful to the source, the path of each
attempt is taken from position `i` of the name list. -/
def scan_loop (namelist : List String) (root : String) (dev_ok : String → Bool) :
    Nat → Nat → List String
  | 0, _ => []
  | Nat.succ r, i =>
      let p := sd_get_full_path root (namelist.getD i "")
      if dev_ok p then p :: scan_loop namelist root dev_ok r (i + 1)
      else scan_loop namelist root dev_ok r i

structure ScanOutcome where
  ret : Int
  built : List String
  deriving DecidableEq, Repr

def joy_scan_devices (root : String) (entries : List String) (dev_ok : String → Bool) :
    ScanOutcome :=
  let namelist := entries.filter sd_filter
  if namelist.length = 0 then { ret := 0, built := [] }
  else { ret := (namelist.length : Int), built := scan_loop namelist root dev_ok namelist.length 0 }

/-- C1 (code bug): a directory holding the qualifying entries
"a-event-joystick" and "b-event-joystick" plus the non-qualifying
"README", where opening the "a" node fails and the "b" node would
succeed, gives N = 2 qualifying entries with k = 1 failure.  The claim
requires the scan to return N - k = 1 with one descriptor built from the
"b" entry; the source instead returns the raw `scandir` count 2 and
builds no descriptor at all, because after the failure at d = 0 the
loop's path index `i` is still 0 and iteration d = 1 retries the
already-freed "a" entry instead of moving on to "b". -/
theorem c1_scan_return_and_skip_wrong :
    joy_scan_devices "/dev" ["a-event-joystick", "b-event-joystick", "README"]
        (fun p => p == "/dev/b-event-joystick") =
      { ret := 2, built := [] } ∧
    (2 : Int) ≠ 2 - 1 := by decide

/-! ## Module-level device list (joystick.c lines 139-140, 567-662)

The module state is the pair of statics `devices_list` / `devices_count`.
A successful scan stores `some slots` where `slots` has
`devices_count + 1` entries: the built descriptors (identified here by
their path) as a prefix, every remaining slot NULL.  When `scandir`
matches nothing the list pointer itself stays NULL.  The `freed_previous`
flag records whether the scan began by releasing a previous list. -/

structure JoyModuleState where
  devices_list : Option (List (Option String))
  devices_count : Int
  deriving DecidableEq, Repr

def joy_get_devices_list (s : JoyModuleState) : Option (List (Option String)) :=
  s.devices_list

def joy_get_devices_count (s : JoyModuleState) : Int :=
  s.devices_count

def joy_free_devices_list (_s : JoyModuleState) : JoyModuleState :=
  { devices_list := none, devices_count := 0 }

structure ScanStep where
  state : JoyModuleState
  ret : Int
  freed_previous : Bool
  deriving DecidableEq, Repr

def joy_scan_devices_state (s : JoyModuleState) (root : String) (entries : List String)
    (dev_ok : String → Bool) : ScanStep :=
  let freed := s.devices_list.isSome
  let namelist := entries.filter sd_filter
  let n := namelist.length
  if n = 0 then
    { state := { devices_list := none, devices_count := 0 }, ret := 0, freed_previous := freed }
  else
    let built := scan_loop namelist root dev_ok n 0
    { state :=
        { devices_list := some (built.map some ++ List.replicate (n + 1 - built.length) none)
          devices_count := (n : Int) }
      ret := (n : Int)
      freed_previous := freed }

theorem scan_loop_length_le (namelist : List String) (root : String) (dev_ok : String → Bool) :
    ∀ r i, (scan_loop namelist root dev_ok r i).length ≤ r := by
  intro r
  induction r with
  | zero => intro i; simp [scan_loop]
  | succ m ih =>
      intro i
      by_cases h : dev_ok (sd_get_full_path root (namelist.getD i "")) = true
      · simp only [scan_loop, h, if_true, List.length_cons]
        exact Nat.succ_le_succ (ih (i + 1))
      · simp only [scan_loop, h, if_false]
        exact Nat.le_succ_of_le (ih i)

/-- C10 counterexample: scanning a directory whose only entry does not
carry the device-class suffix returns 0 ≥ 0, yet the exposed device list
is the NULL pointer — there is no array holding a NULL terminator entry,
contrary to the claim that after every scan returning n ≥ 0 the exposed
array ends the descriptor prefix with a NULL entry. -/
theorem c10_empty_scan_has_no_array :
    (joy_scan_devices_state { devices_list := none, devices_count := 0 } "/dev" ["README"]
        (fun _ => true)).ret = 0 ∧
    joy_get_devices_list
        (joy_scan_devices_state { devices_list := none, devices_count := 0 } "/dev" ["README"]
          (fun _ => true)).state = none := by decide

/-- C10 as amended: for every starting module state and every scan, (a)
the scan releases a previous list exactly when one was present, before
building anew; (b) when no directory entry qualifies the scan returns 0
and the exposed list pointer is NULL; otherwise the exposed array is the
successfully built descriptors as a prefix, immediately followed by a
NULL entry, followed by NULL padding; and (c) after
`joy_free_devices_list` the list is NULL and the count is 0. -/
theorem c10_device_list_consistency (s : JoyModuleState) (root : String)
    (entries : List String) (dev_ok : String → Bool) :
    (joy_scan_devices_state s root entries dev_ok).freed_previous = s.devices_list.isSome ∧
    (joy_scan_devices_state s root entries dev_ok).ret =
      ((entries.filter sd_filter).length : Int) ∧
    (joy_scan_devices_state s root entries dev_ok).state.devices_list =
      (if (entries.filter sd_filter).length = 0 then none
       else
        some ((scan_loop (entries.filter sd_filter) root dev_ok
                  (entries.filter sd_filter).length 0).map some ++
              none :: List.replicate
                ((entries.filter sd_filter).length -
                  (scan_loop (entries.filter sd_filter) root dev_ok
                    (entries.filter sd_filter).length 0).length) none)) ∧
    joy_free_devices_list (joy_scan_devices_state s root entries dev_ok).state =
      { devices_list := none, devices_count := 0 } := by
  by_cases h : (entries.filter sd_filter).length = 0
  · refine ⟨?_, ?_, ?_, ?_⟩ <;>
      simp [joy_scan_devices_state, joy_free_devices_list, joy_get_devices_list, h]
  · have hle := scan_loop_length_le (entries.filter sd_filter) root dev_ok
      (entries.filter sd_filter).length 0
    have hrep : (entries.filter sd_filter).length + 1 -
        (scan_loop (entries.filter sd_filter) root dev_ok
          (entries.filter sd_filter).length 0).length =
        ((entries.filter sd_filter).length -
          (scan_loop (entries.filter sd_filter) root dev_ok
            (entries.filter sd_filter).length 0).length) + 1 := by omega
    refine ⟨?_, ?_, ?_, ?_⟩ <;>
      simp [joy_scan_devices_state, joy_free_devices_list, joy_get_devices_list, h, hrep,
        List.replicate_succ]

/-! ## Sorting the device list (joystick.c lines 665-712)

`joy_sort_devices_list` dispatches on the sort field and calls
`qsort(devices_list, sizeof devices_list[0], sizeof devices_list,
compar)`.  The second argument of `qsort` is the element count and the
third the element size; the source passes `sizeof devices_list[0]` (the
size of one `joy_dev_info_t *` pointer) as the count and
`sizeof devices_list` (the size of the `joy_dev_info_t **` pointer
variable) as the size — on the LP64 targets this program is built for,
both are 8 bytes, independent of `devices_count`.  The model records the
call that is made; the comparator's misreading of its arguments (it
binds `const joy_dev_info_t *d1 = p1` although `qsort` hands it a
`joy_dev_info_t **`) is a memory-layout matter noted in prose. -/

def sizeof_ptr : Nat := 8

inductive JoySortField where
  | byGuid
  | byName
  | byNode
  | invalid
  deriving DecidableEq, Repr

inductive SortAction where
  | noop
  | qsortCall (alloc_slots nmemb size : Nat)
  deriving DecidableEq, Repr

def joy_sort_devices_list (list_alloc_slots : Option Nat) (field : JoySortField) :
    SortAction :=
  match list_alloc_slots with
  | none => SortAction.noop
  | some slots =>
      match field with
      | JoySortField.invalid => SortAction.noop
      | _ => SortAction.qsortCall slots sizeof_ptr sizeof_ptr

/-- C9 (code bug): with a scanned list of 2 devices (3 allocated slots
including the NULL terminator), sorting by GUID calls `qsort` with an
element count of 8 — the byte size of a pointer, not the device count —
and an element size equal to the pointer-variable size; the sort
therefore reads past the 3 allocated slots and never orders the list by
any descriptor field. -/
theorem c9_qsort_misuse :
    joy_sort_devices_list (some 3) JoySortField.byGuid = SortAction.qsortCall 3 8 8 ∧
    sizeof_ptr ≠ 2 ∧ 3 < sizeof_ptr := by decide

/-! ## Poll engine (event-widget.c lines 34-123, 354-369, 400-555)

The engine is the static `poll_data` record driven by the recurring
timer callback `poll_worker`.  The embedding keeps the fields the claims
speak about: the state enum, whether the device fd is open, whether the
libevdev handle is allocated, the pending and current devices
(identified by a `Nat`), and the `prev_type/prev_code/prev_value`
triple.  One timer invocation becomes one application of `poll_worker`;
the kernel side (whether `open` succeeds, whether
`libevdev_new_from_fd` succeeds, and the pending event stream) is an
explicit environment argument.  UI effects the spec names as callbacks
are returned as a list: `deviceReady` for `event_widget_set_device`,
`stoppedMessage` for the "Stopped polling." report, and
`buttonEvent` / `axisEvent` for the two dispatch arms of
`event_widget_update`.  (The inner widget loops those arms run are
modelled separately below for C6.) -/

inductive PollState where
  | idle
  | start
  | poll
  | stop
  | teardown
  deriving DecidableEq, Repr

structure InputEvent where
  etype : Nat
  code : Nat
  value : Nat
  deriving DecidableEq, Repr

/-- One result of `libevdev_next_event`: `syncEv` is a read that
returned LIBEVDEV_READ_STATUS_SYNC together with its event, `okEv` a
read that returned LIBEVDEV_READ_STATUS_SUCCESS, and `noEv` any other
return (such as -EAGAIN). -/
inductive ReadResult where
  | syncEv (ev : InputEvent)
  | okEv (ev : InputEvent)
  | noEv
  deriving DecidableEq, Repr

def is_sync_result : ReadResult → Bool
  | ReadResult.syncEv _ => true
  | _ => false

structure PollData where
  state : PollState
  fd_open : Bool
  evdev_open : Bool
  new_device : Option Nat
  cur_device : Option Nat
  prev_event : Option InputEvent
  deriving DecidableEq, Repr

inductive UiCall where
  | deviceReady (d : Nat)
  | stoppedMessage
  | buttonEvent (code value : Nat)
  | axisEvent (code value : Nat)
  deriving DecidableEq, Repr

structure PollEnv where
  open_ok : Bool
  evdev_ok : Bool
  stream : List ReadResult
  deriving Repr

def EV_KEY : Nat := 1

def EV_ABS : Nat := 3

/-- The dispatch of `event_widget_update`: type EV_KEY goes to
`update_button`, EV_ABS to `update_axis`, anything else (such as EV_SYN)
to neither. -/
def event_widget_update_call (ev : InputEvent) : List UiCall :=
  if ev.etype = EV_KEY then [UiCall.buttonEvent ev.code ev.value]
  else if ev.etype = EV_ABS then [UiCall.axisEvent ev.code ev.value]
  else []

/-- The POLL_STATE_POLL drain loop: in normal mode (`inSync = false`) a
SYNC-status read switches to the inner resynchronization loop, a
SUCCESS read hands its event to `event_widget_update`, anything else is
dropped; in the inner loop (`inSync = true`) reads are printed and
discarded while they keep returning SYNC, and the first non-SYNC read
ends the loop with its result likewise not forwarded.  The function
returns the events handed to `event_widget_update`, in order. -/
def forwarded_events : Bool → List ReadResult → List InputEvent
  | _, [] => []
  | true, ReadResult.syncEv _ :: rest => forwarded_events true rest
  | true, ReadResult.okEv _ :: rest => forwarded_events false rest
  | true, ReadResult.noEv :: rest => forwarded_events false rest
  | false, ReadResult.syncEv _ :: rest => forwarded_events true rest
  | false, ReadResult.okEv ev :: rest => ev :: forwarded_events false rest
  | false, ReadResult.noEv :: rest => forwarded_events false rest

/-- The events of the SUCCESS-status reads of a stream, in order. -/
def ok_events : List ReadResult → List InputEvent
  | [] => []
  | ReadResult.okEv ev :: rest => ev :: ok_events rest
  | _ :: rest => ok_events rest

/-- One invocation of `poll_worker`.  The entry check forces any state
other than idle to POLL_STATE_STOP when a new device is pending; the
switch then performs the work of the (possibly updated) state.  In
POLL_STATE_START the source opens the device node and, on success,
creates the libevdev handle; when the handle creation fails it returns
to idle WITHOUT closing the freshly opened fd (the source has no
`close` on that path).  In POLL_STATE_STOP both handles are released.
`cur_device` is read with a default in POLL_STATE_START; reachable
starting states always carry a device. -/
def poll_worker (env : PollEnv) (pd0 : PollData) : PollData × List UiCall :=
  let pd := if pd0.new_device.isSome && !(pd0.state == PollState.idle) then
              { pd0 with state := PollState.stop }
            else pd0
  match pd.state with
  | PollState.idle =>
      match pd.new_device with
      | some d =>
          ({ pd with cur_device := some d, new_device := none, state := PollState.start }, [])
      | none => (pd, [])
  | PollState.stop =>
      ({ pd with evdev_open := false, fd_open := false, cur_device := none,
                 state := PollState.idle },
       [UiCall.stoppedMessage])
  | PollState.teardown => (pd, [])
  | PollState.start =>
      if !env.open_ok then
        ({ pd with state := PollState.idle }, [])
      else if !env.evdev_ok then
        ({ pd with fd_open := true, state := PollState.idle }, [])
      else
        ({ pd with fd_open := true, evdev_open := true, state := PollState.poll },
         [UiCall.deviceReady (pd.cur_device.getD 0)])
  | PollState.poll =>
      let evs := forwarded_events false env.stream
      ({ pd with prev_event := match evs.getLast? with
                               | some e => some e
                               | none => pd.prev_event },
       evs.flatMap event_widget_update_call)

/-- The state `poll_lock_init` establishes: idle, no devices, no open
handles.  (In the C source the zero-initialized `fd` field is literally
0 rather than -1; the model records only whether a device stream handle
is held, which at initialization is not the case.) -/
def poll_lock_init_data : PollData :=
  { state := PollState.idle, fd_open := false, evdev_open := false,
    new_device := none, cur_device := none, prev_event := none }

def event_widget_start_poll (d : Nat) (pd : PollData) : PollData :=
  { pd with new_device := some d }

def event_widget_stop_poll (pd : PollData) : PollData :=
  { pd with state := PollState.stop }

/-- The invariant claimed for the poll engine: a stream handle (device
fd or libevdev handle) is held exactly in the Starting and Polling
phases. -/
def stream_handle_invariant (pd : PollData) : Prop :=
  (pd.fd_open = true ∨ pd.evdev_open = true) ↔
    (pd.state = PollState.start ∨ pd.state = PollState.poll)

def env_ok : PollEnv := { open_ok := true, evdev_ok := true, stream := [] }

def env_evdev_fails : PollEnv := { open_ok := true, evdev_ok := false, stream := [] }

/-- C4 (code bug): drive the engine from its initial state — request
device 1, run one cycle (idle to starting), then run the starting cycle
in an environment where `open` succeeds but `libevdev_new_from_fd`
fails.  The engine returns to idle with the device fd still open: the
error path of POLL_STATE_START lacks the `close(pd->fd)` that the claim
(and the spec's scoped-acquisition discipline) requires before the
phase becomes Idle. -/
theorem c4_fd_leak_on_evdev_failure :
    (poll_worker env_evdev_fails
        (poll_worker env_ok (event_widget_start_poll 1 poll_lock_init_data)).1).1.state =
      PollState.idle ∧
    (poll_worker env_evdev_fails
        (poll_worker env_ok (event_widget_start_poll 1 poll_lock_init_data)).1).1.fd_open =
      true ∧
    ¬ stream_handle_invariant
        (poll_worker env_evdev_fails
          (poll_worker env_ok (event_widget_start_poll 1 poll_lock_init_data)).1).1 := by
  refine ⟨rfl, rfl, ?_⟩
  intro h
  have := h.mp (Or.inl rfl)
  cases this with
  | inl h1 => exact PollState.noConfusion h1
  | inr h2 => exact PollState.noConfusion h2

/-- C5 counterexample: from Idle, `begin_poll(7)` followed by ONE drive
cycle leaves the engine in the Starting phase with no callback fired —
it does not transition to Polling and `on_device_ready` has not fired,
contrary to the claim that a single drive cycle with the stream opening
successfully suffices. -/
theorem c5_one_cycle_insufficient :
    (poll_worker env_ok (event_widget_start_poll 7 poll_lock_init_data)).1.state ≠
      PollState.poll ∧
    (poll_worker env_ok (event_widget_start_poll 7 poll_lock_init_data)).2 = [] := by decide

def c5_start1 (d : Nat) : PollData × List UiCall :=
  poll_worker env_ok (event_widget_start_poll d poll_lock_init_data)

def c5_start2 (d : Nat) : PollData × List UiCall :=
  poll_worker env_ok (c5_start1 d).1

def c5_stop (d : Nat) : PollData × List UiCall :=
  poll_worker env_ok (event_widget_stop_poll (c5_start2 d).1)

def c5_switch1 (d e : Nat) : PollData × List UiCall :=
  poll_worker env_ok (event_widget_start_poll e (c5_start2 d).1)

def c5_switch2 (d e : Nat) : PollData × List UiCall :=
  poll_worker env_ok (c5_switch1 d e).1

def c5_switch3 (d e : Nat) : PollData × List UiCall :=
  poll_worker env_ok (c5_switch2 d e).1

/-- C5 as amended: from Idle, `begin_poll(d)` needs one drive cycle to
reach Starting (no callback) and a second cycle, in which the stream
opens successfully, to reach Polling with `on_device_ready(d)` fired
exactly once; `stop_poll()` followed by one drive cycle reaches Idle
with `on_poll_stopped` fired exactly once and both handles released;
and requesting device e while Polling device d performs exactly one
Stopping cycle (firing `on_poll_stopped` alone), then a cycle entering
Starting, then the Starting cycle firing `on_device_ready(e)` alone —
the two notifications in that order, never interleaved. -/
theorem c5_poll_cycle_scenarios (d e : Nat) :
    ((c5_start1 d).1.state = PollState.start ∧ (c5_start1 d).2 = [] ∧
     (c5_start2 d).1.state = PollState.poll ∧ (c5_start2 d).1.cur_device = some d ∧
     (c5_start2 d).2 = [UiCall.deviceReady d]) ∧
    ((c5_stop d).1.state = PollState.idle ∧ (c5_stop d).2 = [UiCall.stoppedMessage] ∧
     (c5_stop d).1.fd_open = false ∧ (c5_stop d).1.evdev_open = false) ∧
    ((c5_switch1 d e).1.state = PollState.idle ∧
     (c5_switch1 d e).2 = [UiCall.stoppedMessage] ∧
     (c5_switch2 d e).1.state = PollState.start ∧ (c5_switch2 d e).2 = [] ∧
     (c5_switch2 d e).1.cur_device = some e ∧
     (c5_switch3 d e).1.state = PollState.poll ∧
     (c5_switch3 d e).2 = [UiCall.deviceReady e] ∧
     (c5_switch1 d e).2 ++ (c5_switch2 d e).2 ++ (c5_switch3 d e).2 =
       [UiCall.stoppedMessage, UiCall.deviceReady e]) :=
  ⟨⟨rfl, rfl, rfl, rfl, rfl⟩, ⟨rfl, rfl, rfl, rfl⟩,
   ⟨rfl, rfl, rfl, rfl, rfl, rfl, rfl, rfl⟩⟩

theorem forwarded_events_burst (burst : List InputEvent) (post : List ReadResult) :
    forwarded_events true (burst.map ReadResult.syncEv ++ ReadResult.noEv :: post) =
      forwarded_events false post := by
  induction burst with
  | nil => rfl
  | cons b rest ih => simpa [forwarded_events] using ih

/-- C8: while Polling, a burst that begins with a SYNC-status read
(event e0) and continues with SYNC-status reads (events `burst`) until a
non-SYNC read ends the resynchronization never contributes an event to
`event_widget_update` — the forwarded sequence is exactly the SUCCESS
events read before the burst followed by whatever the post-resync tail
forwards, independent of e0 and of every event inside the burst. -/
theorem c8_sync_burst_never_forwarded (pre : List ReadResult) (e0 : InputEvent)
    (burst : List InputEvent) (post : List ReadResult)
    (hpre : ∀ r ∈ pre, is_sync_result r = false) :
    forwarded_events false
        (pre ++ ReadResult.syncEv e0 :: (burst.map ReadResult.syncEv ++ ReadResult.noEv :: post)) =
      ok_events pre ++ forwarded_events false post := by
  induction pre with
  | nil =>
      simpa [forwarded_events, ok_events] using forwarded_events_burst burst post
  | cons r rest ih =>
      have hr : is_sync_result r = false := hpre r (List.mem_cons_self r rest)
      have hrest : ∀ x ∈ rest, is_sync_result x = false :=
        fun x hx => hpre x (List.mem_cons_of_mem r hx)
      cases r with
      | syncEv ev => simp [is_sync_result] at hr
      | okEv ev => simpa [forwarded_events, ok_events] using ih hrest
      | noEv => simpa [forwarded_events, ok_events] using ih hrest

/-- Witness for C8 at a concrete stream: one SUCCESS read before the
burst, a two-event burst, one SUCCESS read after resynchronization. -/
theorem c8_sync_burst_never_forwarded_witness :
    (∀ r ∈ [ReadResult.okEv ⟨1, 0x120, 1⟩], is_sync_result r = false) ∧
    forwarded_events false
        ([ReadResult.okEv ⟨1, 0x120, 1⟩] ++ ReadResult.syncEv ⟨1, 0x121, 1⟩ ::
          ([⟨3, 0, 5⟩].map ReadResult.syncEv ++ ReadResult.noEv ::
            [ReadResult.okEv ⟨1, 0x122, 0⟩])) =
      ok_events [ReadResult.okEv ⟨1, 0x120, 1⟩] ++
        forwarded_events false [ReadResult.okEv ⟨1, 0x122, 0⟩] :=
  ⟨by decide,
   c8_sync_burst_never_forwarded [ReadResult.okEv ⟨1, 0x120, 1⟩] ⟨1, 0x121, 1⟩
     [⟨3, 0, 5⟩] [ReadResult.okEv ⟨1, 0x122, 0⟩] (by decide)⟩

/-! ## Widget update loops (event-widget.c lines 306-348)

`update_button` iterates `for (i = 0; dev->num_buttons; i++)`: the loop
guard is the constant `num_buttons`, not a bound on `i`.  The body
breaks out only when the event code equals `button_map[i]` AND the LED
widget for row i exists.  `update_axis` is identical with `num_axes` and
`axis_map[i].code`.  The model asks whether iteration k of the loop is
entered: it is when the guard holds and no earlier iteration hit the
break.  Reads of `button_map` past its end (undefined behavior in C) are
modelled as a junk value distinct from the queried code; the theorem's
failing input only ever compares in-bounds entries before the loop has
already exceeded the claimed bound. -/

structure DevCaps where
  num_buttons : Nat
  button_map : List Nat
  num_axes : Nat
  axis_codes : List Nat
  deriving Repr

def update_button_break_at (dev : DevCaps) (led_present : Nat → Bool) (code i : Nat) : Bool :=
  (dev.button_map.getD i (code + 1) == code) && led_present i

def update_button_enters_iteration (dev : DevCaps) (led_present : Nat → Bool)
    (code k : Nat) : Bool :=
  (!(dev.num_buttons == 0)) &&
    (List.range k).all (fun i => !(update_button_break_at dev led_present code i))

def update_axis_break_at (dev : DevCaps) (widget_present : Nat → Bool) (code i : Nat) : Bool :=
  (dev.axis_codes.getD i (code + 1) == code) && widget_present i

def update_axis_enters_iteration (dev : DevCaps) (widget_present : Nat → Bool)
    (code k : Nat) : Bool :=
  (!(dev.num_axes == 0)) &&
    (List.range k).all (fun i => !(update_axis_break_at dev widget_present code i))

/-- C6 (code bug): a device with one button (map [0x120]) and one axis
(code 0), receiving a key event with code 0x121 and an axis event with
code 2 — codes absent from the maps — enters EVERY iteration k of the
`update_button` / `update_axis` loops: the guard tests the constant
`num_buttons` (resp. `num_axes`) instead of comparing `i` against it, so
the loop never exits and the claimed bound of `num_buttons`
(resp. `num_axes`) iterations is exceeded for every k beyond it. -/
theorem c6_update_loops_unbounded (k : Nat) :
    update_button_enters_iteration ⟨1, [0x120], 1, [0]⟩ (fun _ => true) 0x121 k = true ∧
    update_axis_enters_iteration ⟨1, [0x120], 1, [0]⟩ (fun _ => true) 2 k = true := by
  have hb : ∀ i, update_button_break_at ⟨1, [0x120], 1, [0]⟩ (fun _ => true) 0x121 i = false := by
    intro i
    cases i with
    | zero => rfl
    | succ n => rfl
  have ha : ∀ i, update_axis_break_at ⟨1, [0x120], 1, [0]⟩ (fun _ => true) 2 i = false := by
    intro i
    cases i with
    | zero => rfl
    | succ n => rfl
  constructor
  · simp [update_button_enters_iteration, List.all_eq_true, hb]
  · simp [update_axis_enters_iteration, List.all_eq_true, ha]

end EvdevJoy
